import Mathlib

/-!
Verification development for the django-mcp bridge library.

This file gives a shallow embedding of the library's data model and
operations (URI-template matching, the server singleton, decorator-based
registration, model/admin/DRF handler closures, and the HTTP message view)
and proves the specified properties about them.  Python strings are Lean
strings, Python dicts are association lists, machine behaviour that the
library merely calls into (the ORM, the wrapped FastMCP server) is passed
in as explicit parameters.  Python exceptions are modelled with Except:
a function that may let an exception propagate returns Except, and an
uncaught exception is an `.error` result.
-/

namespace DjangoMcp

/-- Model of a Python runtime value as far as the library manipulates one. -/
inductive PyValue where
  | pyNone : PyValue
  | str (s : String) : PyValue
  | int (n : Int) : PyValue
  | bool (b : Bool) : PyValue
  | dict (entries : List (String × PyValue)) : PyValue
  | list (items : List PyValue) : PyValue
deriving Repr

/-- Model of Python str() on the values above (external Python semantics;
no claim depends on the exact rendering of composite values). -/
def py_str : PyValue → String
  | .pyNone => "None"
  | .str s => s
  | .int n => toString n
  | .bool b => if b then "True" else "False"
  | .dict _ => "dict"
  | .list _ => "list"

/-- Python truthiness on the modelled values. -/
def py_truthy : PyValue → Bool
  | .pyNone => false
  | .str s => !(s == "")
  | .int n => !(n == 0)
  | .bool b => b
  | .dict entries => !entries.isEmpty
  | .list items => !items.isEmpty

/-- Python isinstance(result, (dict, list)) check used by the prompt wrapper. -/
def is_dict_or_list : PyValue → Bool
  | .dict _ => true
  | .list _ => true
  | _ => false

/-- Python s.startswith(c) for a one-character pattern. -/
def starts_with_char (s : String) (c : Char) : Bool :=
  match s.data with
  | [] => false
  | x :: _ => x == c

/-- Python s.endswith(c) for a one-character pattern. -/
def ends_with_char (s : String) (c : Char) : Bool :=
  match s.data.getLast? with
  | none => false
  | some x => x == c

/-- Splitting a character list on a separator character, Python str.split
semantics: the empty input gives one empty group, adjacent separators give
empty groups. -/
def split_chars (c : Char) : List Char → List (List Char)
  | [] => [[]]
  | x :: xs =>
    match split_chars c xs with
    | [] => if x == c then [[], []] else [[x]]
    | g :: gs => if x == c then [] :: g :: gs else (x :: g) :: gs

/-- Python s.split(sep) for a one-character separator, as used by
match_resource_uri with sep = "/". -/
def py_split (s : String) (c : Char) : List String :=
  (split_chars c s.data).map String.mk

/-- Python str.lower, character by character. -/
def py_lower (s : String) : String :=
  String.mk (s.data.map Char.toLower)

/-- Membership of a character-list pattern inside a haystack character list
(used to model the ORM icontains lookup). -/
def contains_sub (haystack needle : List Char) : Bool :=
  match haystack with
  | [] => needle.isEmpty
  | _ :: rest => needle.isPrefixOf haystack || contains_sub rest needle

/-- Model of the ORM field__icontains lookup: case-insensitive substring. -/
def icontains (haystack needle : String) : Bool :=
  contains_sub (py_lower haystack).data (py_lower needle).data

/-! ## inspection.py: resource / URI-template matching -/

/-- A registered MCP resource as the resource manager stores it
(the fields match_resource_uri reads). -/
structure MCPResource where
  uri_template : String
  description : String
deriving Repr, DecidableEq

/-- Source line 115 of inspection.py: a template part is a parameter part
when it starts with a left brace and ends with a right brace. -/
def is_param_part (s : String) : Bool :=
  starts_with_char s '\x7b' && ends_with_char s '\x7d'

/-- The per-segment loop of match_resource_uri (inspection.py lines 112-119):
walk the zipped segment lists, a parameter part matches anything, any other
part must be equal, and the first mismatch stops the loop with matches=False.
Python's zip(strict=False) stops at the shorter list, hence the base cases. -/
def parts_match : List String → List String → Bool
  | [], _ => true
  | _ :: _, [] => true
  | t :: ts, u :: us =>
    if is_param_part t then parts_match ts us
    else if t == u then parts_match ts us
    else false

/-- match_resource_uri (inspection.py lines 90-124) over the list of
registered resources, in registration order: skip a resource whose template
has a different number of "/"-segments, run the segment loop, and return the
first resource that matches; None when the list is exhausted. -/
def match_resource_uri : List MCPResource → String → Option MCPResource
  | [], _ => none
  | r :: rest, uri =>
    if (py_split r.uri_template '/').length != (py_split uri '/').length then
      match_resource_uri rest uri
    else if parts_match (py_split r.uri_template '/') (py_split uri '/') then
      some r
    else
      match_resource_uri rest uri

/-- The claim's matching criterion, written from the spec's words: the
template split on "/" has exactly as many segments as the URI split on "/",
and every segment that is not of the parameter form is character-equal to
the corresponding URI segment. -/
def SpecUriMatch (template uri : String) : Prop :=
  (py_split template '/').length = (py_split uri '/').length ∧
    ∀ i < (py_split template '/').length,
      is_param_part ((py_split template '/').getD i "") = false →
        (py_split template '/').getD i "" = (py_split uri '/').getD i ""

instance (template uri : String) : Decidable (SpecUriMatch template uri) := by
  unfold SpecUriMatch
  exact inferInstance

/-! ## Django model metadata (inspection.py, model inspection half) -/

/-- Kinds of model fields the library distinguishes (only CharField and
TextField are ever tested for, in the search tool). -/
inductive FieldKind where
  | char_field | text_field | integer_field | boolean_field | auto_field | other_field
deriving Repr, DecidableEq

/-- A Django model field as _meta.fields exposes it. -/
structure DjangoField where
  name : String
  primary_key : Bool
  kind : FieldKind
deriving Repr, DecidableEq

/-- The model _meta object: the attributes the library reads. -/
structure ModelMeta where
  model_name : String
  app_label : String
  verbose_name : String
  verbose_name_plural : String
  fields : List DjangoField
deriving Repr, DecidableEq

/-- A Django model class, identified with its metadata. -/
structure DjangoModel where
  meta : ModelMeta
deriving Repr, DecidableEq

/-- Model of Python str.title() on a word: first letter upper, rest lower. -/
def py_capitalize_word (w : String) : String :=
  match w.data with
  | [] => ""
  | c :: cs => String.mk (c.toUpper :: cs.map Char.toLower)

/-- Model of Python str.title() for space-separated words. -/
def py_title (s : String) : String :=
  String.intercalate " " ((py_split s ' ').map py_capitalize_word)

def get_model_meta (m : DjangoModel) : ModelMeta := m.meta

def get_model_name (m : DjangoModel) : String := (get_model_meta m).model_name

def get_app_label (m : DjangoModel) : String := (get_model_meta m).app_label

def get_verbose_name (m : DjangoModel) : String := (get_model_meta m).verbose_name

def get_model_verbose_name_title (m : DjangoModel) : String := py_title (get_verbose_name m)

def get_verbose_name_plural (m : DjangoModel) : String := (get_model_meta m).verbose_name_plural

def get_model_fields (m : DjangoModel) : List DjangoField := (get_model_meta m).fields

/-- inspection.py lines 265-279: field names, optionally dropping the
primary key and any field literally named "id". -/
def get_model_field_names (m : DjangoModel) (exclude_pk : Bool) : List String :=
  if exclude_pk then
    ((get_model_fields m).filter (fun f => f.name != "id" && !f.primary_key)).map (fun f => f.name)
  else
    (get_model_fields m).map (fun f => f.name)

/-- A model instance: its metadata, its attribute values, and its str(). -/
structure DjangoInstance where
  meta : ModelMeta
  attr_values : List (String × PyValue)
  str_repr : String
deriving Repr

/-- Python getattr(instance, name) on the modelled instance. -/
def py_getattr (inst : DjangoInstance) (attr : String) : PyValue :=
  match inst.attr_values.find? (fun kv => kv.1 == attr) with
  | some kv => kv.2
  | none => .pyNone

/-- Dictionary lookup on a modelled dict. -/
def dict_get (d : List (String × PyValue)) (k : String) : PyValue :=
  match d.find? (fun kv => kv.1 == k) with
  | some kv => kv.2
  | none => .pyNone

/-- model_tools.py lines 292-314: one dict entry per model field, the value
taken from the instance attribute of the same name. -/
def instance_to_dict (inst : DjangoInstance) : List (String × PyValue) :=
  inst.meta.fields.map (fun f => (f.name, py_getattr inst f.name))

/-! ## server.py: the FastMCP singleton -/

/-- The wrapped FastMCP server object: the constructor arguments it was
built from, plus a construction counter so that distinct constructions are
distinguishable. -/
structure FastMCP where
  name : Option String
  instructions : Option String
  dependencies : List String
  lifespan : Option Int
  fmcp_id : Nat
deriving Repr, DecidableEq

/-- The Django settings attributes the server module reads; none models an
absent attribute (getattr default). -/
structure MCPSettings where
  django_mcp_server_name : Option String
  django_mcp_instructions : Option String
  django_mcp_dependencies : Option (List String)
deriving Repr

/-- The module-level mutable state of server.py: the process-wide server
reference and a counter for fresh construction identities. -/
structure MCPServerState where
  mcp_server : Option FastMCP
  next_id : Nat
deriving Repr, DecidableEq

/-- server.py lines 19-75, sequential semantics of the double-checked
initialization: return the existing instance if the reference is set,
otherwise resolve defaults from settings (and the pytest fallback name)
and construct exactly one new FastMCP, storing it in the reference. -/
def fresh_mcp_server (name instructions : Option String) (dependencies : Option (List String))
    (lifespan : Option Int) (settings : MCPSettings) (pytest_loaded : Bool)
    (next_id : Nat) : FastMCP :=
  let resolved_name :=
    match name with
    | some n => some n
    | none =>
      match settings.django_mcp_server_name with
      | some n => some n
      | none => if pytest_loaded then some "Test MCP Server" else none
  let resolved_instructions :=
    match instructions with
    | some i => some i
    | none => settings.django_mcp_instructions
  let resolved_dependencies :=
    match dependencies with
    | some d => d
    | none => settings.django_mcp_dependencies.getD []
  ⟨resolved_name, resolved_instructions, resolved_dependencies, lifespan, next_id⟩

def get_mcp_server (name instructions : Option String) (dependencies : Option (List String))
    (lifespan : Option Int) (settings : MCPSettings) (pytest_loaded : Bool)
    (st : MCPServerState) : FastMCP × MCPServerState :=
  match st.mcp_server with
  | some server => (server, st)
  | none =>
    let server := fresh_mcp_server name instructions dependencies lifespan settings
      pytest_loaded st.next_id
    (server, ⟨some server, st.next_id + 1⟩)

/-- server.py lines 97-105: clear the reference. -/
def reset_mcp_server (st : MCPServerState) : MCPServerState :=
  { mcp_server := none, next_id := st.next_id }

/-! ## Exceptions, ORM effects, registration entries -/

/-- A Python exception, carrying its message. -/
structure PyErr where
  msg : String
deriving Repr, DecidableEq

/-- Exceptions the host framework ORM can raise at the call sites the
library uses. -/
inductive DbErr where
  | does_not_exist
  | multiple_objects_returned
  | integrity_error (m : String)
  | database_error (m : String)
deriving Repr, DecidableEq

def db_err_msg : DbErr → String
  | .does_not_exist => "DoesNotExist"
  | .multiple_objects_returned => "MultipleObjectsReturned"
  | .integrity_error m => m
  | .database_error m => m

def db_err_to_py (e : DbErr) : PyErr := ⟨db_err_msg e⟩

/-- The ORM entry points the library calls. -/
inductive OrmOp where
  | get | filter | create | count | all
deriving Repr, DecidableEq

/-- Observable side effects of library code: an ORM call, or a read of
class-level model metadata. -/
inductive Effect where
  | orm (op : OrmOp)
  | meta_read (attr : String)
deriving Repr, DecidableEq

def Effect.is_orm : Effect → Bool
  | .orm _ => true
  | .meta_read _ => false

/-- What a registration call records on the wrapped server. -/
inductive RegEntry where
  | tool (description : String)
  | prompt (description : String)
  | resource (uri_template : String)
deriving Repr, DecidableEq

/-- The registration-time effect trace of a registration call that did not
raise (empty when it raised). -/
def reg_effects (r : Except PyErr (List RegEntry × List Effect)) : List Effect :=
  match r with
  | .ok pr => pr.2
  | .error _ => []

/-! ## api.py: decorators, tool parameter descriptors, prompt wrappers -/

/-- Type hints the tool decorator distinguishes (inspect annotations);
empty models a missing hint, a_other any hint outside the table. -/
inductive PyAnn where
  | empty | a_str | a_int | a_float | a_bool | a_dict | a_list | a_other
deriving Repr, DecidableEq

/-- A parameter of the decorated function signature; default none models
inspect.Parameter.empty, that is, no default value. -/
structure PyParam where
  name : String
  ann : PyAnn
  default : Option PyValue
deriving Repr

/-- One descriptor dict built per kept parameter; ptype is the value stored
at the "type" key. -/
structure ToolParamDescriptor where
  name : String
  ptype : String
  description : String
  required : Bool
deriving Repr, DecidableEq

/-- api.py lines 58-71: default "string", then the if/elif chain on the
declared type hint. -/
def tool_param_type (ann : PyAnn) : String :=
  if ann == .empty then "string"
  else if ann == .a_str then "string"
  else if ann == .a_int then "integer"
  else if ann == .a_float then "number"
  else if ann == .a_bool then "boolean"
  else if ann == .a_dict then "object"
  else if ann == .a_list then "array"
  else "string"

/-- api.py line 54: the skip test of the parameter loop. -/
def skip_tool_param (p : PyParam) : Bool :=
  p.name == "self" || p.name == "cls" || p.name == "context" || starts_with_char p.name '_'

/-- api.py lines 52-84: the parameter loop of the tool decorator. -/
def tool_parameters : List PyParam → List ToolParamDescriptor
  | [] => []
  | p :: rest =>
    if skip_tool_param p then tool_parameters rest
    else ⟨p.name, tool_param_type p.ann, "", p.default.isNone⟩ :: tool_parameters rest

/-- The type table exactly as the claim words it. -/
def claim_param_type (ann : PyAnn) : String :=
  match ann with
  | .a_int => "integer"
  | .a_float => "number"
  | .a_bool => "boolean"
  | .a_dict => "object"
  | .a_list => "array"
  | .a_str => "string"
  | .empty => "string"
  | .a_other => "string"

/-- The exclusion rule exactly as the claim words it. -/
def ClaimExcluded (p : PyParam) : Prop :=
  p.name = "self" ∨ p.name = "cls" ∨ p.name = "context" ∨ starts_with_char p.name '_' = true

instance (p : PyParam) : Decidable (ClaimExcluded p) := by
  unfold ClaimExcluded
  exact inferInstance

/-- api.py lines 86-98: registration step of the tool decorator, with the
outcome of get_mcp_server passed in; a broad except turns a failure into no
registration, never an exception. -/
def tool_decorator (getServer : Except PyErr FastMCP) (tool_description : String) :
    Except PyErr (List RegEntry) :=
  match getServer with
  | .error _ => .ok []
  | .ok _ => .ok [RegEntry.tool tool_description]

/-- api.py lines 177-189: registration step of the prompt decorator. -/
def prompt_decorator (getServer : Except PyErr FastMCP) (prompt_description : String) :
    Except PyErr (List RegEntry) :=
  match getServer with
  | .error _ => .ok []
  | .ok _ => .ok [RegEntry.prompt prompt_description]

/-- api.py lines 224-236: registration step of the resource decorator. -/
def resource_decorator (getServer : Except PyErr FastMCP) (uri_template : String) :
    Except PyErr (List RegEntry) :=
  match getServer with
  | .error _ => .ok []
  | .ok _ => .ok [RegEntry.resource uri_template]

/-- api.py lines 156-164: the synchronous prompt wrapper. -/
def prompt_wrapper (func : PyValue → PyValue) (arg : PyValue) : PyValue :=
  let result := func arg
  if !is_dict_or_list result then .str (py_str result) else result

/-- api.py lines 167-175: the asynchronous prompt wrapper, whose body after
the await is identical to the synchronous one. -/
def prompt_async_wrapper (func : PyValue → PyValue) (arg : PyValue) : PyValue :=
  let result := func arg
  if !is_dict_or_list result then .str (py_str result) else result

/-! ## model_tools.py: handler closures -/

/-- model_tools.py lines 91-102: the get tool closure; only DoesNotExist is
caught, every other ORM exception propagates. -/
def get_model_instance_handler (m : DjangoModel) (db_get : Except DbErr DjangoInstance)
    (instance_id : Int) : Except PyErr PyValue × List Effect :=
  match db_get with
  | .ok inst => (.ok (.dict (instance_to_dict inst)), [.orm .get])
  | .error .does_not_exist =>
    (.ok (.dict [("error", .str (py_title (get_verbose_name m) ++ " with ID " ++
      toString instance_id ++ " not found"))]), [.orm .get])
  | .error e => (.error (db_err_to_py e), [.orm .get])

/-- model_tools.py lines 121-130: the list tool closure; no exception
handling at all, the queryset slice result is returned directly. -/
def list_model_instances_handler (db_all : Except DbErr (List DjangoInstance))
    (limit offset : Nat) : Except PyErr PyValue × List Effect :=
  match db_all with
  | .error e => (.error (db_err_to_py e), [.orm .all])
  | .ok instances =>
    (.ok (.list (((instances.drop offset).take limit).map
      (fun i => .dict (instance_to_dict i)))), [.orm .all])

/-- The CharField/TextField fields the search tool builds Q objects over. -/
def model_text_fields (m : DjangoModel) : List DjangoField :=
  (get_model_fields m).filter (fun f => f.kind == .char_field || f.kind == .text_field)

/-- The disjunction of icontains lookups the OR-ed Q object denotes. -/
def instance_matches_query (m : DjangoModel) (inst : DjangoInstance) (query : String) : Bool :=
  (model_text_fields m).any (fun f => icontains (py_str (py_getattr inst f.name)) query)

/-- model_tools.py lines 149-168: the search tool closure; with no text
fields the empty Q object is falsy and the empty list is returned without
filtering, otherwise the filter query runs (and may raise, uncaught). -/
def search_model_instances_handler (m : DjangoModel) (db : Except DbErr (List DjangoInstance))
    (query : String) (limit : Nat) : Except PyErr PyValue × List Effect :=
  if (model_text_fields m).isEmpty then (.ok (.list []), [])
  else
    match db with
    | .error e => (.error (db_err_to_py e), [.orm .filter])
    | .ok rows =>
      (.ok (.list (((rows.filter (fun i => instance_matches_query m i query)).take limit).map
        (fun i => .dict (instance_to_dict i)))), [.orm .filter])

/-- model_tools.py lines 208-212: the kwargs the create closure keeps. -/
def create_filtered_kwargs (m : DjangoModel) (kwargs : List (String × PyValue)) :
    List (String × PyValue) :=
  kwargs.filter (fun kv => (get_model_field_names m true).contains kv.1)

/-- The create-tool key rule exactly as the claim words it: the key names
a model field other than the primary key and other than "id". -/
def ClaimValidKey (m : DjangoModel) (key : String) : Prop :=
  key ≠ "id" ∧ ∃ f ∈ get_model_fields m, f.name = key ∧ f.primary_key = false

instance (m : DjangoModel) (key : String) : Decidable (ClaimValidKey m key) := by
  unfold ClaimValidKey
  exact inferInstance

/-- model_tools.py lines 198-218: the create tool closure; no exception
handling, objects.create failures propagate. -/
def create_model_instance_handler (m : DjangoModel)
    (db_create : List (String × PyValue) → Except DbErr DjangoInstance)
    (kwargs : List (String × PyValue)) : Except PyErr PyValue × List Effect :=
  match db_create (create_filtered_kwargs m kwargs) with
  | .error e => (.error (db_err_to_py e), [.orm .create])
  | .ok inst => (.ok (.dict (instance_to_dict inst)), [.orm .create])

/-- model_tools.py lines 263-282: the Markdown body of the model resource. -/
def model_resource_markdown (m : DjangoModel) (fields : Option (List String))
    (inst : DjangoInstance) : String :=
  let instance_dict := instance_to_dict inst
  let keys := instance_dict.map (fun kv => kv.1)
  let field_names :=
    match fields with
    | some fs => if fs.isEmpty then keys else fs
    | none => keys
  let md0 : List String :=
    ["# " ++ py_title (get_verbose_name m) ++ ": " ++ inst.str_repr, "",
     "Information about this " ++ get_verbose_name m ++ ".", "", "## Attributes", ""]
  let md1 := (field_names.filter (fun fn => instance_dict.any (fun kv => kv.1 == fn))).map
    (fun fn => "- **" ++ fn ++ "**: " ++ py_str (dict_get instance_dict fn))
  String.intercalate "\n" (md0 ++ md1)

/-- model_tools.py lines 249-286: the model resource closure; DoesNotExist
and every other exception are caught and rendered as Markdown strings. -/
def get_model_resource_handler (m : DjangoModel) (lookup : String)
    (fields : Option (List String)) (db_get : Except DbErr DjangoInstance) (pk : String) :
    Except PyErr PyValue × List Effect :=
  match db_get with
  | .ok inst => (.ok (.str (model_resource_markdown m fields inst)), [.orm .get])
  | .error .does_not_exist =>
    (.ok (.str ("# Not Found\n\nThe " ++ get_verbose_name m ++ " with " ++ lookup ++ "=" ++
      pk ++ " does not exist.")), [.orm .get])
  | .error e =>
    (.ok (.str ("# Error\n\nError retrieving " ++ get_verbose_name m ++ ": " ++ db_err_msg e)),
      [.orm .get])

/-! ## model_tools.py: registration functions -/

/-- model_tools.py lines 87-105: registration work of the get tool; the
verbose name is read and one tool is registered.  The pair is the list of
registrations and the registration-time effect trace. -/
def register_model_get_tool_core (m : DjangoModel) : List RegEntry × List Effect :=
  ([RegEntry.tool ("Get a " ++ get_verbose_name m ++ " by ID")],
   [Effect.meta_read "verbose_name"])

/-- model_tools.py lines 117-133. -/
def register_model_list_tool_core (m : DjangoModel) : List RegEntry × List Effect :=
  ([RegEntry.tool ("List " ++ get_verbose_name_plural m)],
   [Effect.meta_read "verbose_name_plural"])

/-- model_tools.py lines 145-171. -/
def register_model_search_tool_core (m : DjangoModel) : List RegEntry × List Effect :=
  ([RegEntry.tool ("Search for " ++ get_verbose_name_plural m)],
   [Effect.meta_read "verbose_name_plural"])

/-- model_tools.py lines 183-221: reads verbose name and model name, then
registers the create tool. -/
def register_model_create_tool_core (m : DjangoModel) : List RegEntry × List Effect :=
  ([RegEntry.tool ("Create a new " ++ get_verbose_name m)],
   [Effect.meta_read "verbose_name", Effect.meta_read "model_name"])

def all_tools : List String := ["get", "list", "search", "create"]

/-- model_tools.py lines 24-75: register_model_tools.  A failing
get_mcp_server is caught and the function returns having registered
nothing; otherwise the include/exclude filtering selects which of the four
tools to register, and each selected sub-registration runs.  The pfx
argument only influences tool renaming, which registers nothing extra. -/
def register_model_tools (getServer : Except PyErr FastMCP) (m : DjangoModel)
    (pfx : Option String) (include_list exclude_list : Option (List String)) :
    Except PyErr (List RegEntry × List Effect) :=
  match getServer with
  | .error _ => .ok ([], [])
  | .ok _ =>
    let tools0 :=
      match include_list with
      | none => all_tools
      | some inc => all_tools.filter (fun t => inc.contains t)
    let tools1 :=
      match exclude_list with
      | none => tools0
      | some exc => tools0.filter (fun t => !exc.contains t)
    let r_get := if tools1.contains "get" then register_model_get_tool_core m else ([], [])
    let r_list := if tools1.contains "list" then register_model_list_tool_core m else ([], [])
    let r_search := if tools1.contains "search" then register_model_search_tool_core m else ([], [])
    let r_create := if tools1.contains "create" then register_model_create_tool_core m else ([], [])
    let _ := pfx
    .ok (r_get.1 ++ r_list.1 ++ r_search.1 ++ r_create.1,
         Effect.meta_read "model_name" :: (r_get.2 ++ r_list.2 ++ r_search.2 ++ r_create.2))

/-- model_tools.py lines 224-289: register_model_resource; a failing
get_mcp_server is caught, otherwise app label and model name are read and
one resource with template "app_label://\x7blookup\x7d" is registered. -/
def register_model_resource (getServer : Except PyErr FastMCP) (m : DjangoModel)
    (lookup : String) (_fields : Option (List String)) :
    Except PyErr (List RegEntry × List Effect) :=
  match getServer with
  | .error _ => .ok ([], [])
  | .ok _ =>
    .ok ([RegEntry.resource (get_app_label m ++ "://\x7b" ++ lookup ++ "\x7d")],
         [Effect.meta_read "app_label", Effect.meta_read "model_name"])

/-! ## admin_tools.py -/

/-- An admin action callable: its __name__ and optional short_description. -/
structure AdminAction where
  action_name : String
  short_description : Option String
deriving Repr, DecidableEq

/-- admin_tools.py line 57: short_description if set, else the __name__
with underscores replaced by spaces, lowercased. -/
def action_display_name (a : AdminAction) : String :=
  match a.short_description with
  | some s => s
  | none => py_lower (String.map (fun c => if c == '_' then ' ' else c) a.action_name)

/-- admin_tools.py lines 23-68 with 71-109: register_admin_tools; a failing
get_mcp_server is caught and nothing is registered, otherwise one tool per
action not excluded is registered (actions identified by name). -/
def register_admin_tools (getServer : Except PyErr FastMCP) (actions : List AdminAction)
    (m : DjangoModel) (exclude_actions : Option (List String)) :
    Except PyErr (List RegEntry × List Effect) :=
  match getServer with
  | .error _ => .ok ([], [])
  | .ok _ =>
    let exc := exclude_actions.getD []
    let kept := actions.filter (fun a => !exc.contains a.action_name)
    .ok (kept.map (fun a => RegEntry.tool ("Execute admin \x27" ++ action_display_name a ++
          "\x27 action on " ++ get_verbose_name m)),
         [Effect.meta_read "model_name", Effect.meta_read "verbose_name"])

/-- admin_tools.py lines 87-106: the admin action closure; the whole body
is inside one broad except that renders any exception as a string. -/
def admin_action_tool_handler (action_name verbose_name : String)
    (db_get : Except DbErr DjangoInstance)
    (action_run : DjangoInstance → Except PyErr PyValue) (id_arg : Int) :
    Except PyErr PyValue × List Effect :=
  match db_get with
  | .error e => (.ok (.str ("Error executing admin action: " ++ db_err_msg e)), [.orm .get])
  | .ok inst =>
    match action_run inst with
    | .error e => (.ok (.str ("Error executing admin action: " ++ e.msg)), [.orm .get])
    | .ok result =>
      if py_truthy result then (.ok result, [.orm .get])
      else (.ok (.str ("Admin action \x27" ++ action_name ++ "\x27 executed successfully on " ++
        verbose_name ++ " " ++ toString id_arg)), [.orm .get])

/-- admin_tools.py lines 112-189: register_admin_site; a failing
get_mcp_server is caught, otherwise the admin_models tool and the
admin://models resource are registered (the registry is only walked when
the tool is invoked). -/
def register_admin_site (getServer : Except PyErr FastMCP) :
    Except PyErr (List RegEntry × List Effect) :=
  match getServer with
  | .error _ => .ok ([], [])
  | .ok _ =>
    .ok ([RegEntry.tool "Get admin model information", RegEntry.resource "admin://models"], [])

/-- The invocation-time ORM trace of the admin_models tool registered by
register_admin_site: one objects.count() per model in the admin registry
(admin_tools.py line 145). -/
def admin_models_handler_trace (registry : List DjangoModel) : List Effect :=
  registry.map (fun _ => Effect.orm .count)

/-- admin_tools.py lines 192-270: register_admin_resource; a failing
get_mcp_server is caught, otherwise one resource is registered under the
admin URI (the count query happens only inside the closure). -/
def register_admin_resource (getServer : Except PyErr FastMCP) (m : DjangoModel)
    (pfx : Option String) : Except PyErr (List RegEntry × List Effect) :=
  match getServer with
  | .error _ => .ok ([], [])
  | .ok _ =>
    let base := "admin://" ++ get_app_label m ++ "/" ++ get_model_name m
    let uri :=
      match pfx with
      | some p => if p == "" then base else p ++ base
      | none => base
    .ok ([RegEntry.resource uri], [Effect.meta_read "app_label", Effect.meta_read "model_name"])

/-! ## drf_tools.py -/

/-- A DRF ViewSet class: the attributes register_drf_viewset reads. -/
structure DrfViewSet where
  is_viewset : Bool
  queryset_model : Option DjangoModel
  action_map : Option (List (String × String))
deriving Repr

/-- drf_tools.py line 75: the fallback action map. -/
def default_action_map : List (String × String) :=
  [("get", "retrieve"), ("post", "create"), ("put", "update"),
   ("patch", "partial_update"), ("delete", "destroy")]

/-- drf_tools.py lines 34-133: register_drf_viewset; skipped when DRF is
unavailable or the class is not a ViewSet, a failing get_mcp_server is
caught, otherwise one tool per non-head/options action is registered. -/
def register_drf_viewset (drf_available : Bool) (getServer : Except PyErr FastMCP)
    (vs : DrfViewSet) : Except PyErr (List RegEntry × List Effect) :=
  if !drf_available then .ok ([], [])
  else if !vs.is_viewset then .ok ([], [])
  else
    match getServer with
    | .error _ => .ok ([], [])
    | .ok _ =>
      let model_name :=
        match vs.queryset_model with
        | some m => get_verbose_name m
        | none => "resource"
      let name_effects : List Effect :=
        match vs.queryset_model with
        | some _ => [Effect.meta_read "verbose_name"]
        | none => []
      let actions := vs.action_map.getD default_action_map
      let kept := actions.filter
        (fun ma => !(py_lower ma.1 == "head" || py_lower ma.1 == "options"))
      .ok (kept.map (fun ma => RegEntry.tool ("API action: " ++ ma.2 ++ " " ++ model_name)),
           name_effects)

/-- drf_tools.py lines 136-157 (registration part of
register_serializer_resource): skipped when DRF is unavailable, a failing
get_mcp_server is caught, otherwise one resource is registered under the
given template. -/
def register_serializer_resource (drf_available : Bool) (getServer : Except PyErr FastMCP)
    (uri_template : String) : Except PyErr (List RegEntry × List Effect) :=
  if !drf_available then .ok ([], [])
  else
    match getServer with
    | .error _ => .ok ([], [])
    | .ok _ => .ok ([RegEntry.resource uri_template], [])

/-- A DRF action result: a Response with a data attribute, or a plain value. -/
inductive DrfResponse where
  | with_data (d : PyValue)
  | plain (v : PyValue)
deriving Repr

/-- drf_tools.py lines 93-133: the DRF action closure; instantiation
failure, missing action and execution failure are each caught and rendered
as error dicts, and a Response data attribute is unwrapped. -/
def drf_action_tool_handler (action_name : String) (instantiate : Except PyErr Unit)
    (action_method : Option (List (String × PyValue) → Except PyErr DrfResponse))
    (params : List (String × PyValue)) : Except PyErr PyValue × List Effect :=
  match instantiate with
  | .error e =>
    (.ok (.dict [("error", .str ("Failed to instantiate ViewSet: " ++ e.msg))]), [])
  | .ok _ =>
    match action_method with
    | none => (.ok (.dict [("error", .str ("Action " ++ action_name ++ " not found on ViewSet"))]), [])
    | some run =>
      match run params with
      | .error e => (.ok (.dict [("error", .str ("Error executing action: " ++ e.msg))]), [])
      | .ok (.with_data d) => (.ok d, [])
      | .ok (.plain v) => (.ok v, [])

/-! ## views.py: the message view -/

def error_json (message : String) : PyValue := .dict [("error", .str message)]

/-- views.py lines 41-72: mcp_message_view as a function of the outcome of
get_mcp_server, the outcome of json.loads on the request body, and
handle_message; the result is the HTTP status and the JSON payload. -/
def mcp_message_view (getServer : Except PyErr FastMCP) (parsed_body : Except PyErr PyValue)
    (handle_message : PyValue → Except PyErr PyValue) : Nat × PyValue :=
  match getServer with
  | .error _ => (500, error_json "MCP server not initialized")
  | .ok _ =>
    match parsed_body with
    | .error _ => (400, error_json "Invalid JSON body")
    | .ok body =>
      match handle_message body with
      | .error e => (500, error_json e.msg)
      | .ok response => (200, response)

theorem parts_match_iff_forall (ts : List String) : ∀ us : List String,
    ts.length = us.length →
    (parts_match ts us = true ↔
      ∀ i < ts.length, is_param_part (ts.getD i "") = false → ts.getD i "" = us.getD i "") := by
  induction ts with
  | nil =>
    intro us _
    simp [parts_match]
  | cons t ts ih =>
    intro us hlen
    cases us with
    | nil => simp at hlen
    | cons u us =>
      have hlen' : ts.length = us.length := by simpa using hlen
      have iht := ih us hlen'
      by_cases hpt : is_param_part t = true
      · simp only [parts_match]
        rw [if_pos hpt, iht]
        constructor
        · intro hall i hi hp
          cases i with
          | zero => simp only [List.getD_cons_zero] at hp; rw [hpt] at hp; cases hp
          | succ n =>
            simp only [List.getD_cons_succ]
            exact hall n (by simpa using hi) (by simpa using hp)
        · intro hall i hi hp
          have := hall (i + 1) (by simpa using hi) (by simpa using hp)
          simpa using this
      · by_cases heq : (t == u) = true
        · simp only [parts_match]
          rw [if_neg hpt, if_pos heq, iht]
          constructor
          · intro hall i hi hp
            cases i with
            | zero => simp only [List.getD_cons_zero]; exact eq_of_beq heq
            | succ n =>
              simp only [List.getD_cons_succ]
              exact hall n (by simpa using hi) (by simpa using hp)
          · intro hall i hi hp
            have := hall (i + 1) (by simpa using hi) (by simpa using hp)
            simpa using this
        · simp only [parts_match]
          rw [if_neg hpt, if_neg heq]
          constructor
          · intro hfalse; cases hfalse
          · intro hall
            have h0 := hall 0 (by simp) (by simpa using hpt)
            simp only [List.getD_cons_zero] at h0
            exact absurd (beq_iff_eq.mpr h0) (by simpa using heq)

/-- The per-resource test performed by the loop body of match_resource_uri
agrees with the claim's criterion. -/
theorem resource_step_iff_spec (template uri : String) :
    (¬((py_split template '/').length != (py_split uri '/').length) ∧
      parts_match (py_split template '/') (py_split uri '/') = true) ↔
    SpecUriMatch template uri := by
  unfold SpecUriMatch
  constructor
  · rintro ⟨hlen, hpm⟩
    have hlen' : (py_split template '/').length = (py_split uri '/').length := by
      simpa using hlen
    exact ⟨hlen', (parts_match_iff_forall _ _ hlen').mp hpm⟩
  · rintro ⟨hlen, hall⟩
    exact ⟨by simp [hlen], (parts_match_iff_forall _ _ hlen).mpr hall⟩

/-- One unfolding step of the matching loop, phrased with the claim's
criterion. -/
theorem match_resource_uri_cons (r : MCPResource) (rest : List MCPResource) (uri : String) :
    match_resource_uri (r :: rest) uri =
      if SpecUriMatch r.uri_template uri then some r else match_resource_uri rest uri := by
  by_cases hspec : SpecUriMatch r.uri_template uri
  · rw [if_pos hspec]
    obtain ⟨hlen, hall⟩ := hspec
    have hpm := (parts_match_iff_forall _ _ hlen).mpr hall
    simp only [match_resource_uri]
    rw [if_neg (by simp [hlen]), if_pos hpm]
  · rw [if_neg hspec]
    simp only [match_resource_uri]
    by_cases hlen : ((py_split r.uri_template '/').length != (py_split uri '/').length) = true
    · rw [if_pos hlen]
    · have hlen' : (py_split r.uri_template '/').length = (py_split uri '/').length := by
        simpa using hlen
      have hpm : ¬parts_match (py_split r.uri_template '/') (py_split uri '/') = true :=
        fun hpm => hspec ⟨hlen', (parts_match_iff_forall _ _ hlen').mp hpm⟩
      rw [if_neg hlen, if_neg hpm]

/-- C1: match_resource_uri returns the first registered resource whose
uri_template, split on "/", has exactly as many segments as the URI split
on "/" and whose every non-parameter segment is character-equal to the
corresponding URI segment (parameter segments of the brace form match any
value); it returns None exactly when no registered resource satisfies
this. -/
theorem c1_match_resource_uri_first (resources : List MCPResource) (uri : String) :
    (∀ r, match_resource_uri resources uri = some r →
      SpecUriMatch r.uri_template uri ∧
        ∃ pre post, resources = pre ++ r :: post ∧
          ∀ r2 ∈ pre, ¬SpecUriMatch r2.uri_template uri) ∧
    (match_resource_uri resources uri = none ↔
      ∀ r ∈ resources, ¬SpecUriMatch r.uri_template uri) := by
  induction resources with
  | nil =>
    refine ⟨?_, ?_⟩
    · intro r h
      cases h
    · simp [match_resource_uri]
  | cons r0 rest ih =>
    by_cases h0 : SpecUriMatch r0.uri_template uri
    · constructor
      · intro r h
        rw [match_resource_uri_cons, if_pos h0] at h
        have hr : r0 = r := Option.some.inj h
        subst hr
        refine ⟨h0, [], rest, rfl, ?_⟩
        intro r2 hr2
        cases hr2
      · rw [match_resource_uri_cons, if_pos h0]
        constructor
        · intro h; cases h
        · intro hall
          exact absurd h0 (hall r0 (by simp))
    · constructor
      · intro r h
        rw [match_resource_uri_cons, if_neg h0] at h
        obtain ⟨hspec, pre, post, heq, hpre⟩ := ih.1 r h
        refine ⟨hspec, r0 :: pre, post, by rw [heq]; rfl, ?_⟩
        intro r2 hr2
        rcases List.mem_cons.mp hr2 with hr2 | hr2
        · rw [hr2]; exact h0
        · exact hpre r2 hr2
      · rw [match_resource_uri_cons, if_neg h0, ih.2]
        constructor
        · intro h r hr
          rcases List.mem_cons.mp hr with hr2 | hr2
          · rw [hr2]; exact h0
          · exact h r hr2
        · intro hall r hr
          exact hall r (List.mem_cons_of_mem _ hr)

/-- Witness for C1: a concrete template with a parameter segment matches a
concrete URI and is returned as the first match. -/
theorem c1_match_resource_uri_first_witness :
    SpecUriMatch "app://\x7bpk\x7d" "app://5" ∧
      ∃ pre post,
        [MCPResource.mk "app://\x7bpk\x7d" "d"] =
          pre ++ MCPResource.mk "app://\x7bpk\x7d" "d" :: post ∧
        ∀ r2 ∈ pre, ¬SpecUriMatch r2.uri_template "app://5" :=
  (c1_match_resource_uri_first [MCPResource.mk "app://\x7bpk\x7d" "d"] "app://5").1
    (MCPResource.mk "app://\x7bpk\x7d" "d") (by decide)

/-- C2: the server singleton is initialized at most once.  When the
reference already holds an instance, get_mcp_server returns that same
instance and leaves the state unchanged, for every choice of the
name/instructions/dependencies/lifespan arguments; reset_mcp_server is the
operation that clears the reference; when the reference is empty,
get_mcp_server constructs exactly one fresh instance and stores it; and
get_mcp_server always leaves the reference holding the instance it
returned (in particular it never clears it); a get after a reset
constructs a fresh instance. -/
theorem c2_server_singleton (name instructions : Option String)
    (dependencies : Option (List String)) (lifespan : Option Int) (settings : MCPSettings)
    (pytest_loaded : Bool) (st : MCPServerState) :
    (∀ s, st.mcp_server = some s →
      get_mcp_server name instructions dependencies lifespan settings pytest_loaded st =
        (s, st)) ∧
    ((reset_mcp_server st).mcp_server = none) ∧
    (st.mcp_server = none →
      ∃ server,
        get_mcp_server name instructions dependencies lifespan settings pytest_loaded st =
          (server, ⟨some server, st.next_id + 1⟩) ∧ server.fmcp_id = st.next_id) ∧
    ((get_mcp_server name instructions dependencies lifespan settings pytest_loaded
        st).2.mcp_server =
      some (get_mcp_server name instructions dependencies lifespan settings pytest_loaded
        st).1) ∧
    ((get_mcp_server name instructions dependencies lifespan settings pytest_loaded
        (reset_mcp_server st)).1.fmcp_id = st.next_id) := by
  refine ⟨?_, rfl, ?_, ?_, ?_⟩
  · intro s hs
    simp [get_mcp_server, hs]
  · intro hnone
    exact ⟨fresh_mcp_server name instructions dependencies lifespan settings pytest_loaded
      st.next_id, by simp [get_mcp_server, hnone], rfl⟩
  · cases hs : st.mcp_server with
    | some s => simp [get_mcp_server, hs]
    | none => simp [get_mcp_server, hs]
  · simp [get_mcp_server, reset_mcp_server, fresh_mcp_server]

/-- Witness for C2: starting from the empty state, get_mcp_server
constructs and stores a fresh instance with identity 0. -/
theorem c2_server_singleton_witness :
    ∃ server,
      get_mcp_server none none none none ⟨none, none, none⟩ true ⟨none, 0⟩ =
        (server, ⟨some server, 1⟩) ∧ server.fmcp_id = 0 :=
  (c2_server_singleton none none none none ⟨none, none, none⟩ true ⟨none, 0⟩).2.2.1 rfl

/-- C3 counterexample: the claim that every listed handler closure catches
host-framework exceptions is false.  The list closure has no exception
handling at all, so a database error raised by the queryset propagates;
the get closure catches only DoesNotExist, so MultipleObjectsReturned
propagates.  Both are shown at explicit concrete inputs. -/
theorem c3_handlers_counterexample :
    (list_model_instances_handler (.error (.database_error "connection closed")) 10 0).1 =
      Except.error ⟨"connection closed"⟩ ∧
    (get_model_instance_handler ⟨⟨"book", "shop", "book", "books", []⟩⟩
        (.error .multiple_objects_returned) 1).1 =
      Except.error ⟨"MultipleObjectsReturned"⟩ :=
  ⟨rfl, rfl⟩

/-- C3 (amended): only the model-resource, admin-action and DRF-action
closures catch every exception and return string/dict error payloads;
get_model_instance catches only DoesNotExist and lets every other ORM
exception propagate; list_model_instances, search_model_instances (when
text fields exist, so the filter query runs) and create_model_instance
have no handler and propagate ORM exceptions unchanged. -/
theorem c3_handler_exception_behaviour (m : DjangoModel) (lookup : String)
    (fields : Option (List String)) (db_get : Except DbErr DjangoInstance) (pk : String)
    (action_name verbose_name : String) (action_run : DjangoInstance → Except PyErr PyValue)
    (id_arg : Int) (drf_action : String) (instantiate : Except PyErr Unit)
    (action_method : Option (List (String × PyValue) → Except PyErr DrfResponse))
    (params : List (String × PyValue)) (instance_id : Int)
    (db_all : Except DbErr (List DjangoInstance)) (limit offset : Nat) (query : String)
    (db_create : List (String × PyValue) → Except DbErr DjangoInstance)
    (kwargs : List (String × PyValue)) :
    ((get_model_resource_handler m lookup fields db_get pk).1.isOk = true) ∧
    ((admin_action_tool_handler action_name verbose_name db_get action_run id_arg).1.isOk =
      true) ∧
    ((drf_action_tool_handler drf_action instantiate action_method params).1.isOk = true) ∧
    ((get_model_instance_handler m (.error .does_not_exist) instance_id).1.isOk = true) ∧
    (∀ e, db_get = .error e → e ≠ .does_not_exist →
      (get_model_instance_handler m db_get instance_id).1 = .error (db_err_to_py e)) ∧
    (∀ e, db_all = .error e →
      (list_model_instances_handler db_all limit offset).1 = .error (db_err_to_py e)) ∧
    (∀ e, db_all = .error e → (model_text_fields m).isEmpty = false →
      (search_model_instances_handler m db_all query limit).1 = .error (db_err_to_py e)) ∧
    (∀ e, db_create (create_filtered_kwargs m kwargs) = .error e →
      (create_model_instance_handler m db_create kwargs).1 = .error (db_err_to_py e)) := by
  refine ⟨?_, ?_, ?_, rfl, ?_, ?_, ?_, ?_⟩
  · cases db_get with
    | ok inst => rfl
    | error e => cases e <;> rfl
  · cases db_get with
    | ok inst =>
      cases hr : action_run inst with
      | ok result =>
        simp only [admin_action_tool_handler, hr]
        by_cases ht : py_truthy result = true
        · rw [if_pos ht]; rfl
        · rw [if_neg ht]; rfl
      | error e => simp [admin_action_tool_handler, hr, Except.isOk, Except.toBool]
    | error e => rfl
  · cases instantiate with
    | error e => rfl
    | ok u =>
      cases action_method with
      | none => rfl
      | some run =>
        cases hr : run params with
        | error e => simp [drf_action_tool_handler, hr, Except.isOk, Except.toBool]
        | ok resp =>
          cases resp <;> simp [drf_action_tool_handler, hr, Except.isOk, Except.toBool]
  · intro e he hne
    subst he
    cases e with
    | does_not_exist => exact absurd rfl hne
    | multiple_objects_returned => rfl
    | integrity_error msg => rfl
    | database_error msg => rfl
  · intro e he
    subst he
    rfl
  · intro e he hnonempty
    subst he
    simp only [search_model_instances_handler, hnonempty]
    rw [if_neg (by simp [hnonempty])]
  · intro e he
    simp [create_model_instance_handler, he]

/-- Witness for C3 (amended): the admin closure turns a database error into
an ok string payload, while the list closure propagates the same error. -/
theorem c3_handler_exception_behaviour_witness :
    ((admin_action_tool_handler "mark" "book" (.error (.database_error "down"))
        (fun _ => .ok .pyNone) 1).1.isOk = true) ∧
    (list_model_instances_handler (.error (.database_error "down")) 10 0).1 =
      .error (db_err_to_py (.database_error "down")) :=
  ⟨(c3_handler_exception_behaviour ⟨⟨"book", "shop", "book", "books", []⟩⟩ "pk" none
      (.error (.database_error "down")) "1" "mark" "book" (fun _ => .ok .pyNone) 1 "list"
      (.ok ()) none [] 1 (.error (.database_error "down")) 10 0 "q"
      (fun _ => .error (.database_error "down")) []).2.1,
   (c3_handler_exception_behaviour ⟨⟨"book", "shop", "book", "books", []⟩⟩ "pk" none
      (.error (.database_error "down")) "1" "mark" "book" (fun _ => .ok .pyNone) 1 "list"
      (.ok ()) none [] 1 (.error (.database_error "down")) 10 0 "q"
      (fun _ => .error (.database_error "down")) []).2.2.2.2.2.1
      (.database_error "down") rfl⟩

/-- C4: every registration entry point returns normally, registering
nothing, when get_mcp_server raises: the three decorators and the six
registration functions all catch the failure (or return before reaching
the server) and produce an ok result with an empty registration list. -/
theorem c4_registration_noop_on_server_failure (e : PyErr) (desc uri : String)
    (m : DjangoModel) (pfx : Option String)
    (include_list exclude_list : Option (List String)) (actions : List AdminAction)
    (exclude_actions : Option (List String)) (drf_available : Bool) (vs : DrfViewSet)
    (lookup : String) (fields : Option (List String)) :
    tool_decorator (.error e) desc = .ok [] ∧
    prompt_decorator (.error e) desc = .ok [] ∧
    resource_decorator (.error e) uri = .ok [] ∧
    register_model_tools (.error e) m pfx include_list exclude_list = .ok ([], []) ∧
    register_admin_tools (.error e) actions m exclude_actions = .ok ([], []) ∧
    register_admin_site (.error e) = .ok ([], []) ∧
    register_drf_viewset drf_available (.error e) vs = .ok ([], []) ∧
    register_serializer_resource drf_available (.error e) uri = .ok ([], []) ∧
    register_model_resource (.error e) m lookup fields = .ok ([], []) := by
  refine ⟨rfl, rfl, rfl, rfl, rfl, rfl, ?_, ?_, rfl⟩
  · cases drf_available with
    | false => rfl
    | true =>
      cases hvs : vs.is_viewset with
      | false => simp [register_drf_viewset, hvs]
      | true => simp [register_drf_viewset, hvs]
  · cases drf_available with
    | false => rfl
    | true => rfl

/-- The Boolean skip test of the parameter loop agrees with the exclusion
rule as the claim words it. -/
theorem skip_tool_param_iff (p : PyParam) : skip_tool_param p = true ↔ ClaimExcluded p := by
  simp [skip_tool_param, ClaimExcluded, Bool.or_eq_true, beq_iff_eq, or_assoc]

/-- C5: the tool decorator builds exactly one descriptor per signature
parameter not named self/cls/context and not starting with an underscore,
with the type table of the claim (integer for int, number for float,
boolean for bool, object for dict, array for list, string for str or a
missing hint) and required exactly when the parameter has no default. -/
theorem c5_tool_parameter_descriptors (params : List PyParam) :
    tool_parameters params =
      (params.filter (fun p => !decide (ClaimExcluded p))).map
        (fun p => ⟨p.name, claim_param_type p.ann, "", p.default.isNone⟩) := by
  induction params with
  | nil => rfl
  | cons p rest ih =>
    have htype : tool_param_type p.ann = claim_param_type p.ann := by
      cases p.ann <;> rfl
    by_cases hskip : skip_tool_param p = true
    · have hcl : ClaimExcluded p := (skip_tool_param_iff p).mp hskip
      simp [tool_parameters, hskip, hcl, ih]
    · have hcl : ¬ClaimExcluded p := fun h => hskip ((skip_tool_param_iff p).mpr h)
      simp [tool_parameters, hskip, hcl, ih, htype]

/-- C6 counterexample: the claim omits the server-acquisition branch that
runs before body parsing.  When get_mcp_server raises and the body is not
valid JSON, the view returns status 500, not the claimed 400. -/
theorem c6_message_view_counterexample :
    mcp_message_view (.error ⟨"boom"⟩) (.error ⟨"Expecting value"⟩) (fun _ => .ok .pyNone) =
      (500, error_json "MCP server not initialized") ∧
    (mcp_message_view (.error ⟨"boom"⟩) (.error ⟨"Expecting value"⟩)
        (fun _ => .ok .pyNone)).1 ≠ 400 :=
  ⟨rfl, by decide⟩

/-- C6 (amended): when obtaining the server fails the view returns 500
with a server-not-initialized error; otherwise an invalid JSON body gives
400, a raising handle_message gives 500 carrying the exception text, and
on success the view returns exactly the handle_message result of the
parsed body, unmodified, with status 200. -/
theorem c6_message_view_branches (getServer : Except PyErr FastMCP)
    (parsed_body : Except PyErr PyValue) (handle_message : PyValue → Except PyErr PyValue) :
    (∀ server, getServer = .ok server →
      (∀ perr, parsed_body = .error perr →
        mcp_message_view getServer parsed_body handle_message =
          (400, error_json "Invalid JSON body")) ∧
      (∀ body failure, parsed_body = .ok body → handle_message body = .error failure →
        mcp_message_view getServer parsed_body handle_message =
          (500, error_json failure.msg)) ∧
      (∀ body response, parsed_body = .ok body → handle_message body = .ok response →
        mcp_message_view getServer parsed_body handle_message = (200, response))) ∧
    (∀ failure, getServer = .error failure →
      mcp_message_view getServer parsed_body handle_message =
        (500, error_json "MCP server not initialized")) := by
  constructor
  · intro server hs
    subst hs
    refine ⟨?_, ?_, ?_⟩
    · intro perr hp
      subst hp
      rfl
    · intro body failure hp hh
      subst hp
      simp [mcp_message_view, hh]
    · intro body response hp hh
      subst hp
      simp [mcp_message_view, hh]
  · intro failure hs
    subst hs
    rfl

/-- Witness for C6 (amended): with the server available, an invalid body
yields 400 and a successful handle_message result is forwarded with 200. -/
theorem c6_message_view_branches_witness :
    mcp_message_view (.ok ⟨none, none, [], none, 0⟩) (.error ⟨"bad"⟩)
        (fun _ => .ok .pyNone) = (400, error_json "Invalid JSON body") ∧
    mcp_message_view (.ok ⟨none, none, [], none, 0⟩) (.ok (.dict []))
        (fun b => .ok b) = (200, .dict []) :=
  ⟨((c6_message_view_branches (.ok ⟨none, none, [], none, 0⟩) (.error ⟨"bad"⟩)
      (fun _ => .ok .pyNone)).1 ⟨none, none, [], none, 0⟩ rfl).1 ⟨"bad"⟩ rfl,
   ((c6_message_view_branches (.ok ⟨none, none, [], none, 0⟩) (.ok (.dict []))
      (fun b => .ok b)).1 ⟨none, none, [], none, 0⟩ rfl).2.2 (.dict []) (.dict []) rfl rfl⟩

/-- For any condition, a branch between two registration results whose
effect traces are ORM-free has an ORM-free effect trace. -/
theorem branch_effects_not_orm (c : Prop) [Decidable c] (x y : List RegEntry × List Effect)
    (hx : x.2.all (fun eff => !eff.is_orm) = true) (hy : y.2.all (fun eff => !eff.is_orm) = true) :
    (if c then x else y).2.all (fun eff => !eff.is_orm) = true := by
  by_cases h : c
  · rw [if_pos h]; exact hx
  · rw [if_neg h]; exact hy

/-- C7: registering model, admin or DRF tools and resources performs no
ORM operation at registration time: every effect in the registration
traces is a metadata read; ORM operations occur only in the traces of
invoked handler closures, as the get handler and the admin_models handler
show. -/
theorem c7_registration_is_orm_free (server : FastMCP) (m : DjangoModel)
    (pfx pfx2 : Option String) (include_list exclude_list : Option (List String))
    (drf_available : Bool) (vs : DrfViewSet) (registry : List DjangoModel)
    (db_get : Except DbErr DjangoInstance) (instance_id : Int) :
    ((reg_effects (register_model_tools (.ok server) m pfx include_list exclude_list)).all
      (fun eff => !eff.is_orm) = true) ∧
    ((reg_effects (register_admin_site (.ok server))).all (fun eff => !eff.is_orm) = true) ∧
    ((reg_effects (register_admin_resource (.ok server) m pfx2)).all
      (fun eff => !eff.is_orm) = true) ∧
    ((reg_effects (register_drf_viewset drf_available (.ok server) vs)).all
      (fun eff => !eff.is_orm) = true) ∧
    ((get_model_instance_handler m db_get instance_id).2 = [Effect.orm .get]) ∧
    ((admin_models_handler_trace registry).all (fun eff => eff.is_orm) = true) := by
  refine ⟨?_, rfl, rfl, ?_, ?_, ?_⟩
  · simp only [register_model_tools, reg_effects, List.all_cons, List.all_append,
      Bool.and_eq_true]
    repeat' apply And.intro
    all_goals first
      | rfl
      | exact branch_effects_not_orm _ _ _ rfl rfl
  · cases drf_available with
    | false => rfl
    | true =>
      cases hvs : vs.is_viewset with
      | false => simp [register_drf_viewset, reg_effects, hvs]
      | true =>
        cases hq : vs.queryset_model with
        | none => simp [register_drf_viewset, reg_effects, hvs, hq]
        | some m2 => simp [register_drf_viewset, reg_effects, hvs, hq, Effect.is_orm]
  · cases db_get with
    | ok inst => rfl
    | error e => cases e <;> rfl
  · simp only [admin_models_handler_trace, List.all_eq_true]
    intro eff heff
    rcases List.mem_map.mp heff with ⟨x, _, hx⟩
    rw [← hx]
    rfl

/-- C8: the prompt wrappers return the wrapped function result unchanged
when it is a dict or a list, and str(result) otherwise; the async wrapper
behaves identically on the awaited result. -/
theorem c8_prompt_wrapper_formats (func : PyValue → PyValue) (arg : PyValue) :
    (is_dict_or_list (func arg) = true →
      prompt_wrapper func arg = func arg ∧ prompt_async_wrapper func arg = func arg) ∧
    (is_dict_or_list (func arg) = false →
      prompt_wrapper func arg = .str (py_str (func arg)) ∧
      prompt_async_wrapper func arg = .str (py_str (func arg))) := by
  constructor
  · intro h
    constructor <;> simp [prompt_wrapper, prompt_async_wrapper, h]
  · intro h
    constructor <;> simp [prompt_wrapper, prompt_async_wrapper, h]

/-- Witness for C8: a non-dict non-list result is stringified, a list
result is passed through. -/
theorem c8_prompt_wrapper_formats_witness :
    prompt_wrapper (fun _ => PyValue.bool true) PyValue.pyNone = PyValue.str "True" ∧
    prompt_async_wrapper (fun v => PyValue.list [v]) PyValue.pyNone =
      PyValue.list [PyValue.pyNone] :=
  ⟨((c8_prompt_wrapper_formats (fun _ => PyValue.bool true) PyValue.pyNone).2 rfl).1,
   ((c8_prompt_wrapper_formats (fun v => PyValue.list [v]) PyValue.pyNone).1 rfl).2⟩

/-- The membership test against the create tool valid-field set agrees
with the key rule as the claim words it. -/
theorem field_names_contains_iff (m : DjangoModel) (key : String) :
    (get_model_field_names m true).contains key = true ↔ ClaimValidKey m key := by
  have hmemiff : (get_model_field_names m true).contains key = true ↔
      key ∈ get_model_field_names m true := by simp
  rw [hmemiff]
  unfold get_model_field_names ClaimValidKey
  rw [if_pos rfl]
  constructor
  · intro h
    rcases List.mem_map.mp h with ⟨f, hf, rfl⟩
    rcases List.mem_filter.mp hf with ⟨hmem, hcond⟩
    have hcond2 : f.name ≠ "id" ∧ f.primary_key = false := by simpa using hcond
    exact ⟨hcond2.1, f, hmem, rfl, hcond2.2⟩
  · rintro ⟨hid, f, hmem, rfl, hpk⟩
    exact List.mem_map.mpr ⟨f, List.mem_filter.mpr ⟨hmem, by simp [hid, hpk]⟩, rfl⟩

/-- C9: the create tool passes to objects.create exactly the kwargs whose
key names a non-primary-key model field other than "id"; other keys are
silently dropped and creation proceeds without error. -/
theorem c9_create_tool_filters_kwargs (m : DjangoModel) (kwargs : List (String × PyValue)) :
    (create_filtered_kwargs m kwargs =
      kwargs.filter (fun kv => decide (ClaimValidKey m kv.1))) ∧
    (∀ inst : DjangoInstance,
      (create_model_instance_handler m (fun _ => .ok inst) kwargs).1 =
        .ok (.dict (instance_to_dict inst))) := by
  constructor
  · apply List.filter_congr
    intro kv _
    apply Bool.eq_iff_iff.mpr
    rw [decide_eq_true_iff]
    exact field_names_contains_iff m kv.1
  · intro inst
    rfl

/-- C10: for a model with no CharField or TextField the search tool
returns the empty list with no filter query issued; for a model with such
fields it returns at most limit instances, each matching the query
case-insensitively on at least one of those text fields. -/
theorem c10_search_tool (m : DjangoModel) (db : Except DbErr (List DjangoInstance))
    (query : String) (limit : Nat) :
    (model_text_fields m = [] →
      search_model_instances_handler m db query limit = (.ok (.list []), [])) ∧
    (∀ rows, db = .ok rows → model_text_fields m ≠ [] →
      ∃ selected : List DjangoInstance,
        search_model_instances_handler m db query limit =
          (.ok (.list (selected.map (fun i => .dict (instance_to_dict i)))),
            [Effect.orm .filter]) ∧
        selected.length ≤ limit ∧
        ∀ inst ∈ selected, instance_matches_query m inst query = true) := by
  constructor
  · intro hempty
    simp [search_model_instances_handler, hempty]
  · intro rows hdb hne
    subst hdb
    have hne2 : (model_text_fields m).isEmpty ≠ true := by
      simpa [List.isEmpty_iff] using hne
    refine ⟨(rows.filter (fun i => instance_matches_query m i query)).take limit, ?_, ?_, ?_⟩
    · simp only [search_model_instances_handler]
      rw [if_neg hne2]
    · simp only [List.length_take]
      omega
    · intro inst hmem
      exact (List.mem_filter.mp (List.mem_of_mem_take hmem)).2

/-- Witness for C10: a model with only an integer field searches to the
empty list with no effect trace, and a model with a char field returns
only matching rows, at most the limit. -/
theorem c10_search_tool_witness :
    search_model_instances_handler
        ⟨⟨"counter", "app", "counter", "counters",
          [⟨"id", true, .auto_field⟩, ⟨"n", false, .integer_field⟩]⟩⟩
        (.ok []) "q" 10 = (.ok (.list []), []) ∧
    ∃ selected : List DjangoInstance,
      search_model_instances_handler
          ⟨⟨"book", "shop", "book", "books",
            [⟨"id", true, .auto_field⟩, ⟨"title", false, .char_field⟩]⟩⟩
          (.ok []) "q" 10 =
        (.ok (.list (selected.map (fun i => .dict (instance_to_dict i)))),
          [Effect.orm .filter]) ∧
      selected.length ≤ 10 ∧
      ∀ inst ∈ selected,
        instance_matches_query
          ⟨⟨"book", "shop", "book", "books",
            [⟨"id", true, .auto_field⟩, ⟨"title", false, .char_field⟩]⟩⟩
          inst "q" = true :=
  ⟨(c10_search_tool
      ⟨⟨"counter", "app", "counter", "counters",
        [⟨"id", true, .auto_field⟩, ⟨"n", false, .integer_field⟩]⟩⟩
      (.ok []) "q" 10).1 rfl,
   (c10_search_tool
      ⟨⟨"book", "shop", "book", "books",
        [⟨"id", true, .auto_field⟩, ⟨"title", false, .char_field⟩]⟩⟩
      (.ok []) "q" 10).2 [] rfl (by decide)⟩

end DjangoMcp
